import Mathlib

/-
  Verification of the traversal, puppeting and display-name layer of the
  BeckoningMU typeclasses (src/typeclasses/exits.py, src/typeclasses/characters.py).

  The embedding keeps the shape of the Python source.  Objects are identified by
  natural numbers.  The world graph stores a finite list of live object ids and a
  location field per object; Room occupant sets are derived from the location
  field, so both sides of the Room/occupant invariant change together, exactly as
  the atomic move contract demands.  Side effects (messages, hook invocations,
  the exit-traversed signal, look renderings) are recorded as an event trace.
  Lock evaluation (the access and check_lockstring calls) is an external
  black box per the spec and enters as a Boolean parameter or predicate.
-/

/-- An observable side effect of the code under verification: a text message to
an object, a look-typed rendering message, the default failed-traverse hook, the
post-traverse hook (with the source location captured before the move), and the
exit-traversed telemetry signal. -/
inductive Event where
  | msg (recipient : Nat) (text : String)
  | lookMsg (recipient room : Nat) (session : Option Nat)
  | failedTraverseHook (exitId traverser : Nat)
  | postTraverseHook (exitId traverser : Nat) (source : Option Nat)
  | signalExitTraversed (exitId traverser : Nat) (session : Option Nat)
  deriving DecidableEq

/-- The data of an Exit object that the traversal code reads: its identifier,
its destination (none models a destination that no longer resolves), and the
db.err_traverse attribute (none models an unset attribute). -/
structure ExitObj where
  exitId : Nat
  destination : Option Nat
  err_traverse : Option String
  deriving DecidableEq

/-- The world graph: the list of live object ids and each object location
(none is the nowhere sentinel).  Room occupant sets are derived from loc. -/
structure World where
  objs : List Nat
  loc : Nat → Option Nat

/-- The occupant set of a Room, derived from the location field: exactly the
live objects whose location is that Room. -/
def occupants (w : World) (room : Nat) : List Nat :=
  w.objs.filter (fun o => w.loc o == some room)

/-- Python truthiness of an optional string attribute: an unset attribute and
an empty string are both falsy, mirroring the if self.db.err_traverse test. -/
def truthyStr : Option String → Bool
  | none => false
  | some s => s != ""

/-- Modelled from the spec: the World Graph Store move operation of section 4.2
and the move-blocking external hooks.  The move_to method is inherited from the
framework and is not part of this repository.  It fails when the destination is
the nowhere sentinel or an external hook blocks the move; on success it
atomically updates the location field of the moved object (occupant sets are
derived from that field, so both views change in the same step). -/
def move_to (w : World) (obj : Nat) (destination : Option Nat) (hookBlocks : Bool) :
    World × Bool :=
  match destination with
  | none => (w, false)
  | some d =>
    if hookBlocks then (w, false)
    else (⟨w.objs, fun o => if o = obj then some d else w.loc o⟩, true)

/-- Embedding of Exit.at_traverse (src/typeclasses/exits.py lines 88 to 109):
capture the source location, attempt the move, on success invoke
at_post_traverse with the captured source, otherwise deliver the err_traverse
message when it is truthy and call the at_failed_traverse hook when it is not.
The _session argument mirrors the kwargs threaded through to move_to and the
hooks. -/
def Exit.at_traverse (ex : ExitObj) (w : World) (traversing_object : Nat)
    (target_location : Option Nat) (_session : Option Nat) (hookBlocks : Bool) :
    World × List Event :=
  let source_location := w.loc traversing_object
  let moved := move_to w traversing_object target_location hookBlocks
  if moved.2 then
    (moved.1, [Event.postTraverseHook ex.exitId traversing_object source_location])
  else if truthyStr ex.err_traverse then
    (moved.1, [Event.msg traversing_object (ex.err_traverse.getD "")])
  else
    (moved.1, [Event.failedTraverseHook ex.exitId traversing_object])

/-- Embedding of ExitCommand.func (src/typeclasses/exits.py lines 23 to 41).
canTraverse is the Lock Evaluator result of the access(caller, traverse) call,
a black box per the spec.  When the lock allows, at_traverse runs and the
exit-traversed signal is sent afterwards; when the lock denies, the err_traverse
message is delivered when truthy, else the at_failed_traverse hook is called. -/
def ExitCommand.func (ex : ExitObj) (w : World) (caller : Nat) (session : Option Nat)
    (canTraverse : Bool) (hookBlocks : Bool) : World × List Event :=
  if canTraverse then
    let moved := Exit.at_traverse ex w caller ex.destination session hookBlocks
    (moved.1, moved.2 ++ [Event.signalExitTraversed ex.exitId caller session])
  else if truthyStr ex.err_traverse then
    (w, [Event.msg caller (ex.err_traverse.getD "")])
  else
    (w, [Event.failedTraverseHook ex.exitId caller])

/-- Embedding of Character.at_post_move (src/typeclasses/characters.py lines 43
to 51).  The view access check dereferences the location; a nowhere location
raises (modelled as Except.error).  When view access is granted, a look-typed
message of the new location is sent to the character, threading the session
kwargs; otherwise nothing is sent. -/
def Character.at_post_move (w : World) (ch : Nat) (viewAccess : Nat → Nat → Bool)
    (session : Option Nat) : Except Unit (List Event) :=
  match w.loc ch with
  | none => Except.error ()
  | some room =>
    if viewAccess ch room then Except.ok [Event.lookMsg ch room session]
    else Except.ok []

/-- Python or applied to the moniker attribute and the name: a falsy moniker
(unset or empty) falls back to the name, mirroring self.db.moniker or self.name. -/
def monikerOrName (moniker : Option String) (name : String) : String :=
  match moniker with
  | some s => if s = "" then name else s
  | none => name

/-- Embedding of Character.get_display_name (src/typeclasses/characters.py lines
83 to 106).  isBuilder is the black-box result of the
check_lockstring(looker, perm Builder) call on each possible looker. -/
def Character.get_display_name (moniker : Option String) (name : String) (oid : Nat)
    (looker : Option Nat) (isBuilder : Nat → Bool) : String :=
  match looker with
  | some lk =>
    if isBuilder lk then monikerOrName moniker name ++ "(#" ++ toString oid ++ ")"
    else monikerOrName moniker name
  | none => monikerOrName moniker name

/-- The clickable-link helper inside Exit.get_display_name. -/
def make_link (cmd text : String) : String :=
  "|lc" ++ cmd ++ "|lt" ++ text ++ "|le"

/-- Python min over a list with key=len: the first element of minimal length,
none on an empty list. -/
def minByLen (xs : List String) : Option String :=
  xs.foldl
    (fun acc s =>
      match acc with
      | none => some s
      | some b => if s.length < b.length then some s else some b)
    none

/-- Embedding of Exit.get_display_name (src/typeclasses/exits.py lines 71 to
85): a clickable link built from the exit name, prefixed by the shortest alias
in uppercase when any alias exists.  The looker is ignored by the source. -/
def Exit.get_display_name (name : String) (aliases : List String) : String :=
  let name_link := make_link name name
  match minByLen aliases with
  | none => name_link
  | some a => "<|w" ++ make_link a a.toUpper ++ "|n>  " ++ name_link

/-- Looking up the gettext wrapper name in src/typeclasses/characters.py: the
module never imports it (its only imports are DefaultCharacter, ObjectParent
and STATS, lines 11 to 13) and it is not a Python builtin in a server process,
so evaluating it raises NameError, modelled as Except.error.  A sound version
of the module would bind it to a translation function on strings. -/
def gettextWrapper : Except Unit (String → String) :=
  Except.error ()

/-- Embedding of Character.at_post_puppet (src/typeclasses/characters.py lines
53 to 81).  Its first statement (line 72) evaluates the unbound gettext wrapper
before sending anything, so every call raises there and no event is delivered;
the remaining structure is kept under the binding that would make it sound.
The for_contents fan-out over the location is modelled from the spec
occupantsOf contract (section 4.2) since for_contents is framework code: it
maps the message closure over the occupants of the location, excluding the
character itself.  A nowhere location dereferences null and raises. -/
def Character.at_post_puppet (w : World) (ch : Nat) (moniker : Option String)
    (name : String) (oid : Nat) (isBuilder : Nat → Bool) (session : Option Nat) :
    Except Unit (List Event) :=
  match gettextWrapper with
  | Except.error e => Except.error e
  | Except.ok tr =>
    match w.loc ch with
    | none => Except.error ()
    | some room =>
      Except.ok
        ([Event.msg ch (tr ("\nYou become |c" ++ name ++ "|n.\n")),
          Event.lookMsg ch room session] ++
          ((occupants w room).filter (fun o => o != ch)).map
            (fun o =>
              Event.msg o
                (tr (Character.get_display_name moniker name oid (some o) isBuilder ++
                  " has entered the game."))))

/-- Python banker rounding of round(q, 0): nearest integer, ties to even. -/
def pyRound (q : ℚ) : ℤ :=
  if q - ⌊q⌋ < 1 / 2 then ⌊q⌋
  else if 1 / 2 < q - ⌊q⌋ then ⌊q⌋ + 1
  else if ⌊q⌋ % 2 = 0 then ⌊q⌋ else ⌊q⌋ + 1

/-- Python divmod on numbers with a positive divisor: floor quotient and the
matching remainder. -/
def pydivmod (a b : ℚ) : ℚ × ℚ :=
  (((⌊a / b⌋ : ℤ) : ℚ), a - b * ((⌊a / b⌋ : ℤ) : ℚ))

/-- Python or applied to idle_time and connection_time: a falsy idle_time
(either None or zero) falls back to connection_time. -/
def pyOrTime (a b : Option ℚ) : Option ℚ :=
  match a with
  | none => b
  | some x => if x = 0 then b else some x

/-- Embedding of Character.format_idle_time (src/typeclasses/characters.py lines
114 to 148).  selfIsLooker is the self == looker test.  The result none models
the branch in which no alternative assigns time_str, where the final
time_str.strip() raises at runtime instead of returning a string. -/
def Character.format_idle_time (selfIsLooker : Bool)
    (idle_time connection_time : Option ℚ) : Option String :=
  if selfIsLooker then some "|g0s|n"
  else
    match pyOrTime idle_time connection_time with
    | none => some "|g0s|n"
    | some time =>
      let ms := pydivmod time 60
      let hm := pydivmod ms.1 60
      let dh := pydivmod hm.1 24
      let seconds := pyRound ms.2
      let minutes := pyRound hm.2
      let hours := pyRound dh.2
      let days := pyRound dh.1
      if 0 < days then some ("|x" ++ toString days ++ "d|n").trim
      else if 0 < hours then some ("|x" ++ toString hours ++ "h|n").trim
      else if 0 < minutes then
        if 10 < minutes ∧ minutes < 15 then some ("|G" ++ toString minutes ++ "m|n").trim
        else if 15 < minutes ∧ minutes < 20 then some ("|y" ++ toString minutes ++ "m|n").trim
        else if 20 < minutes ∧ minutes < 30 then some ("|r" ++ toString minutes ++ "m|n").trim
        else if 30 < minutes ∧ minutes ≠ 0 then some ("|r" ++ toString minutes ++ "m|n").trim
        else some ("|g" ++ toString minutes ++ "m|n").trim
      else if 0 < seconds then some ("|g" ++ toString seconds ++ "s|n").trim
      else none

/-- An event that delivers a traversal failure to the given caller: either a
direct message to the caller or the default failed-traverse hook on the caller. -/
def isFailureDelivery (caller : Nat) : Event → Bool
  | Event.msg r _ => r == caller
  | Event.failedTraverseHook _ t => t == caller
  | _ => false

/-- Recognises the post-traverse hook event. -/
def isPostTraverse : Event → Bool
  | Event.postTraverseHook _ _ _ => true
  | _ => false

/-- The event list of a hook result that did not raise. -/
def eventsOf : Except Unit (List Event) → List Event
  | Except.ok evs => evs
  | Except.error _ => []

/-- True when a hook result did not raise. -/
def isOkE : Except Unit (List Event) → Bool
  | Except.ok _ => true
  | Except.error _ => false

/-- C1: when the traverse lock denies the caller, a truthy err_traverse
attribute is delivered verbatim to the caller as the only event and the default
at_failed_traverse hook is not invoked; when err_traverse is not truthy, the
hook is invoked instead.  The custom message entirely overrides the hook. -/
theorem c1_lock_deny_precedence (ex : ExitObj) (w : World) (caller : Nat)
    (session : Option Nat) (hookBlocks : Bool) :
    (truthyStr ex.err_traverse = true →
      (ExitCommand.func ex w caller session false hookBlocks).2
          = [Event.msg caller (ex.err_traverse.getD "")] ∧
        Event.failedTraverseHook ex.exitId caller
          ∉ (ExitCommand.func ex w caller session false hookBlocks).2) ∧
    (truthyStr ex.err_traverse = false →
      (ExitCommand.func ex w caller session false hookBlocks).2
        = [Event.failedTraverseHook ex.exitId caller]) := by
  constructor <;> intro h <;> simp [ExitCommand.func, h]

/-- Witness for C1 at concrete inputs: an exit with a custom message and one
without, each denied by the lock. -/
theorem c1_witness :
    ((ExitCommand.func ⟨1, some 5, some "The vault is sealed."⟩
        ⟨[7], fun _ => some 3⟩ 7 none false false).2
      = [Event.msg 7 "The vault is sealed."]) ∧
    ((ExitCommand.func ⟨2, some 5, none⟩ ⟨[7], fun _ => some 3⟩ 7 none false false).2
      = [Event.failedTraverseHook 2 7]) :=
  ⟨((c1_lock_deny_precedence ⟨1, some 5, some "The vault is sealed."⟩
      ⟨[7], fun _ => some 3⟩ 7 none false).1 (by decide)).1,
   (c1_lock_deny_precedence ⟨2, some 5, none⟩
      ⟨[7], fun _ => some 3⟩ 7 none false).2 (by decide)⟩

/-- C2 amended: the exit-traversed signal is emitted exactly when the traverse
lock allows, regardless of whether the underlying move succeeds; it is never
emitted on lock deny. -/
theorem c2_signal_iff_lock_allows (ex : ExitObj) (w : World) (caller : Nat)
    (session : Option Nat) (canTraverse hookBlocks : Bool) :
    (Event.signalExitTraversed ex.exitId caller session
        ∈ (ExitCommand.func ex w caller session canTraverse hookBlocks).2)
      ↔ canTraverse = true := by
  cases canTraverse
  · cases h : truthyStr ex.err_traverse <;> simp [ExitCommand.func, h]
  · simp [ExitCommand.func]

/-- C2 counterexample: the lock allows but a blocking hook rejects the move, so
the traversal does not succeed (location unchanged, failure hook invoked), yet
the exit-traversed signal is still emitted; this refutes emission if and only
if the traversal succeeds. -/
theorem c2_counterexample :
    (ExitCommand.func ⟨1, some 5, none⟩ ⟨[7], fun _ => some 3⟩ 7 none true true).1.loc 7
      = some 3 ∧
    Event.failedTraverseHook 1 7
      ∈ (ExitCommand.func ⟨1, some 5, none⟩ ⟨[7], fun _ => some 3⟩ 7 none true true).2 ∧
    Event.signalExitTraversed 1 7 none
      ∈ (ExitCommand.func ⟨1, some 5, none⟩ ⟨[7], fun _ => some 3⟩ 7 none true true).2 := by
  refine ⟨rfl, ?_, ?_⟩ <;> decide

/-- C4: on lock deny no move is attempted: the world is returned unchanged, so
the occupant set of every Room (source and destination included) is unchanged,
and exactly one failure delivery is made, addressed to the caller. -/
theorem c4_lock_deny_frame (ex : ExitObj) (w : World) (caller : Nat)
    (session : Option Nat) (hookBlocks : Bool) :
    (ExitCommand.func ex w caller session false hookBlocks).1 = w ∧
    (∀ room, occupants (ExitCommand.func ex w caller session false hookBlocks).1 room
      = occupants w room) ∧
    (ExitCommand.func ex w caller session false hookBlocks).2.length = 1 ∧
    (ExitCommand.func ex w caller session false hookBlocks).2.all (isFailureDelivery caller)
      = true := by
  cases h : truthyStr ex.err_traverse <;>
    simp [ExitCommand.func, h, isFailureDelivery]

/-- C5: when the store rejects the move after the lock allowed, at_traverse
delivers the failure with the same precedence as the lock-deny case (truthy
err_traverse verbatim, else the at_failed_traverse hook), and the
at_post_traverse hook is not invoked. -/
theorem c5_move_rejected_policy (ex : ExitObj) (w : World) (traveller : Nat)
    (target : Option Nat) (session : Option Nat) (hookBlocks : Bool)
    (hfail : (move_to w traveller target hookBlocks).2 = false) :
    (truthyStr ex.err_traverse = true →
      (Exit.at_traverse ex w traveller target session hookBlocks).2
        = [Event.msg traveller (ex.err_traverse.getD "")]) ∧
    (truthyStr ex.err_traverse = false →
      (Exit.at_traverse ex w traveller target session hookBlocks).2
        = [Event.failedTraverseHook ex.exitId traveller]) ∧
    (Exit.at_traverse ex w traveller target session hookBlocks).2.all
      (fun e => !isPostTraverse e) = true := by
  refine ⟨fun h => ?_, fun h => ?_, ?_⟩
  · simp [Exit.at_traverse, hfail, h]
  · simp [Exit.at_traverse, hfail, h]
  · cases h : truthyStr ex.err_traverse <;>
      simp [Exit.at_traverse, hfail, h, isPostTraverse]

/-- Witness for C5 at concrete inputs: a nowhere destination makes the store
reject the move; one exit carries a custom message, the other does not. -/
theorem c5_witness :
    ((Exit.at_traverse ⟨1, some 5, some "Sealed."⟩ ⟨[7], fun _ => some 3⟩ 7 none none false).2
      = [Event.msg 7 "Sealed."]) ∧
    ((Exit.at_traverse ⟨2, some 5, none⟩ ⟨[7], fun _ => some 3⟩ 7 none none false).2
      = [Event.failedTraverseHook 2 7]) :=
  ⟨(c5_move_rejected_policy ⟨1, some 5, some "Sealed."⟩
      ⟨[7], fun _ => some 3⟩ 7 none none false (by decide)).1 (by decide),
   (c5_move_rejected_policy ⟨2, some 5, none⟩
      ⟨[7], fun _ => some 3⟩ 7 none none false (by decide)).2.1 (by decide)⟩

/-- C3: for a traversal whose lock check passes and whose move succeeds, the
traveller ends located at the destination, is present in the destination Room
occupant set and absent from the source Room occupant set, and at_post_traverse
is invoked with the source room captured before the move. -/
theorem c3_success_postconditions (ex : ExitObj) (w : World) (traveller : Nat)
    (session : Option Nat) (dest src : Nat)
    (hdest : ex.destination = some dest) (hmem : traveller ∈ w.objs)
    (hsrc : w.loc traveller = some src) (hne : src ≠ dest) :
    (ExitCommand.func ex w traveller session true false).1.loc traveller = some dest ∧
    traveller ∈ occupants (ExitCommand.func ex w traveller session true false).1 dest ∧
    traveller ∉ occupants (ExitCommand.func ex w traveller session true false).1 src ∧
    Event.postTraverseHook ex.exitId traveller (some src)
      ∈ (ExitCommand.func ex w traveller session true false).2 := by
  simp [ExitCommand.func, Exit.at_traverse, move_to, hdest, hsrc, occupants,
    List.mem_filter, hmem]
  exact fun h => hne h.symm

/-- Witness for C3 at concrete inputs: object 7 moves from room 3 through exit
1 to room 5. -/
theorem c3_witness :
    (ExitCommand.func ⟨1, some 5, none⟩ ⟨[7], fun _ => some 3⟩ 7 none true false).1.loc 7
      = some 5 ∧
    7 ∈ occupants (ExitCommand.func ⟨1, some 5, none⟩ ⟨[7], fun _ => some 3⟩ 7 none true false).1 5 ∧
    7 ∉ occupants (ExitCommand.func ⟨1, some 5, none⟩ ⟨[7], fun _ => some 3⟩ 7 none true false).1 3 ∧
    Event.postTraverseHook 1 7 (some 3)
      ∈ (ExitCommand.func ⟨1, some 5, none⟩ ⟨[7], fun _ => some 3⟩ 7 none true false).2 :=
  c3_success_postconditions ⟨1, some 5, none⟩ ⟨[7], fun _ => some 3⟩ 7 none 5 3
    rfl (by decide) rfl (by decide)

/-- C6 counterexample: a character whose move into room 3 has completed but who
fails the view access check on the new location receives no look rendering at
all, refuting delivery of the look regardless of any further condition. -/
theorem c6_counterexample :
    Character.at_post_move ⟨[7], fun _ => some 3⟩ 7 (fun _ _ => false) (some 5)
      = Except.ok [] := rfl

/-- C6 amended: after a move that leaves the character at a non-nowhere
location, the automatic look rendering of the new location, threading the
session context supplied by the move, is sent exactly when the character
passes the view access check on that location. -/
theorem c6_look_iff_view_access (w : World) (ch room : Nat)
    (viewAccess : Nat → Nat → Bool) (session : Option Nat)
    (h : w.loc ch = some room) :
    Character.at_post_move w ch viewAccess session
      = Except.ok (if viewAccess ch room then [Event.lookMsg ch room session] else []) := by
  unfold Character.at_post_move
  rw [h]
  cases hv : viewAccess ch room <;> simp [hv]

/-- Witness for C6 amended at a concrete input with view access granted. -/
theorem c6_witness :
    Character.at_post_move ⟨[7], fun _ => some 3⟩ 7 (fun _ _ => true) (some 5)
      = Except.ok [Event.lookMsg 7 3 (some 5)] := by
  have h := c6_look_iff_view_access ⟨[7], fun _ => some 3⟩ 7 3 (fun _ _ => true) (some 5) rfl
  simpa using h

/-- C7 counterexample: the Exit named north with no aliases and identifier 1
renders as a viewer-independent clickable link for every looker, including a
Builder, and not in the moniker-or-key(#id) format the claim requires of every
entity. -/
theorem c7_counterexample :
    Exit.get_display_name "north" [] = "|lcnorth|ltnorth|le" ∧
    Exit.get_display_name "north" []
      ≠ monikerOrName none "north" ++ "(#" ++ toString (1 : Nat) ++ ")" := by
  constructor
  · rfl
  · decide

/-- C7 amended: for Character entities the claimed behavior holds: a looker
holding the Builder permission sees the moniker-or-key with the identifier
appended in the Name(#id) format, and a looker without it (or a missing looker)
sees only the moniker-or-key.  Exit entities instead render a
viewer-independent clickable link and never append the identifier. -/
theorem c7_character_display_name (moniker : Option String) (name : String)
    (oid : Nat) (lk : Nat) (isBuilder : Nat → Bool) :
    (isBuilder lk = true →
      Character.get_display_name moniker name oid (some lk) isBuilder
        = monikerOrName moniker name ++ "(#" ++ toString oid ++ ")") ∧
    (isBuilder lk = false →
      Character.get_display_name moniker name oid (some lk) isBuilder
        = monikerOrName moniker name) ∧
    Character.get_display_name moniker name oid none isBuilder
      = monikerOrName moniker name := by
  refine ⟨fun h => ?_, fun h => ?_, rfl⟩ <;> simp [Character.get_display_name, h]

/-- Witness for C7 amended at concrete inputs: a character with moniker Count
and id 42 viewed by a Builder and by a non-Builder. -/
theorem c7_witness :
    Character.get_display_name (some "Count") "bob" 42 (some 9) (fun _ => true)
      = monikerOrName (some "Count") "bob" ++ "(#" ++ toString (42 : Nat) ++ ")" ∧
    Character.get_display_name (some "Count") "bob" 42 (some 9) (fun _ => false)
      = monikerOrName (some "Count") "bob" :=
  ⟨(c7_character_display_name (some "Count") "bob" 42 9 (fun _ => true)).1 rfl,
   (c7_character_display_name (some "Count") "bob" 42 9 (fun _ => false)).2.1 rfl⟩

/-- C10: at_post_move has a non-null location as a precondition: called while
the location is the nowhere sentinel, the view access check dereferences the
null location and the method raises instead of skipping the look step. -/
theorem c10_post_move_null_location_raises (w : World) (ch : Nat)
    (viewAccess : Nat → Nat → Bool) (session : Option Nat)
    (h : w.loc ch = none) :
    Character.at_post_move w ch viewAccess session = Except.error () := by
  simp [Character.at_post_move, h]

/-- Witness for C10 at a concrete input: a character parked nowhere. -/
theorem c10_witness :
    Character.at_post_move ⟨[7], fun _ => none⟩ 7 (fun _ _ => true) none
      = Except.error () :=
  c10_post_move_null_location_raises ⟨[7], fun _ => none⟩ 7 (fun _ _ => true) none rfl

/-- C8: the claim describes the documented intent (the class docstring says the
hook echoes the entered-the-game line to the room), but the staged module never
binds the gettext wrapper, so every call of at_post_puppet raises NameError at
its first statement: the hook errors, no occupant receives any message and the
newly bound session receives no look rendering, on every input. -/
theorem c8_post_puppet_raises (w : World) (ch oid : Nat) (moniker : Option String)
    (name : String) (isBuilder : Nat → Bool) (session : Option Nat) :
    Character.at_post_puppet w ch moniker name oid isBuilder session
      = Except.error () ∧
    isOkE (Character.at_post_puppet w ch moniker name oid isBuilder session) = false ∧
    eventsOf (Character.at_post_puppet w ch moniker name oid isBuilder session) = [] :=
  ⟨rfl, rfl, rfl⟩

/-- C9: format_idle_time is not total: with a looker different from the
character and a defined time value all of whose rounded day, hour, minute and
second components are zero (a time of 0, and a fractional time below half a
second), no branch assigns the result string, so the final strip raises;
the raise is modelled as the none result. -/
theorem c9_format_idle_time_not_total :
    Character.format_idle_time false none (some 0) = none ∧
    Character.format_idle_time false (some (2 / 5)) none = none := by
  constructor <;> norm_num [Character.format_idle_time, pyOrTime, pydivmod, pyRound]
